import Mathlib

/-!
Verification of the chat gateway, retrieval engine and chat orchestrator of a
personal-website repository.  The JavaScript sources `chatbot.js` (browser-side
RAG chatbot) and `cloudflare-worker.js` (provider-fallback gateway) are shallowly
embedded: pure functions become Lean functions, the stateful chat turn becomes an
explicit state transition, network calls become oracle parameters, JSON values
with optional fields become `Option`-valued record fields, and JS floating-point
scores become rationals with the transcendental `Math.log` kept as an abstract
function parameter.
-/

namespace Website

/-! ## Tokenizer (`chatbot.js`, `tokenize`) -/

/-- JS regex class `\w` (ASCII word character): letter, digit, or underscore. -/
def wordChar (c : Char) : Bool := c.isAlphanum || c = '_'

/-- Split a character sequence at every character satisfying `p`, keeping empty
pieces (the model of `String.prototype.split` with a single-character
separator class; JS strings are modelled as their character sequences). -/
def splitOnPred (p : Char → Bool) : List Char → List (List Char)
  | [] => [[]]
  | c :: cs =>
    match splitOnPred p cs with
    | [] => [[c]]
    | t :: ts => if p c then [] :: t :: ts else (c :: t) :: ts

/-- Embedding of `tokenize(text)` from `chatbot.js`:
lowercase, replace every non-word non-whitespace character by a space,
split on whitespace, keep only terms longer than 2 characters.
JS `toLowerCase`/`\w`/`\s` are modelled on the ASCII fragment; splitting at each
whitespace character (rather than at maximal runs) differs from `split(/\s+/)`
only by extra empty strings, all of which the length filter removes. -/
def tokenize (text : String) : List String :=
  ((splitOnPred (fun c => c.isWhitespace)
      (text.toList.map fun c =>
        let lc := c.toLower
        if !(wordChar lc || lc.isWhitespace) then ' ' else lc)).map
    (fun cs => String.mk cs)).filter fun w => 2 < w.length

/-- **C9.** `tokenize` lowercases, strips punctuation to spaces, splits on
whitespace, and drops every term of length ≤ 2; empty and all-punctuation input
give the empty sequence; `tokenize "Hello, World!!" = ["hello","world"]` and
`tokenize "a an is" = []`; being a pure Lean function it is deterministic and
side-effect free. -/
theorem tokenize_spec :
    tokenize "Hello, World!!" = ["hello", "world"] ∧
    tokenize "a an is" = [] ∧
    tokenize "" = [] ∧
    tokenize "!!! ?? ..." = [] ∧
    ∀ text : String, ∀ w ∈ tokenize text, 2 < w.length := by
  refine ⟨by decide, by decide, by decide, by decide, ?_⟩
  intro text w hw
  have h := List.mem_filter.mp hw
  exact of_decide_eq_true h.2

/-- Witness for C9: a concrete term produced by the tokenizer really is longer
than two characters. -/
theorem tokenize_spec_witness : 2 < ("hello" : String).length :=
  tokenize_spec.2.2.2.2 "Hello, World!!" "hello" (by decide)

/-! ## Retrieval engine (`chatbot.js`, `computeTFIDF` / `searchKnowledge`) -/

/-- Does `needle` occur at the start of `hay`? -/
def beginsWith : List Char → List Char → Bool
  | [], _ => true
  | _ :: _, [] => false
  | a :: as, b :: bs => a = b && beginsWith as bs

/-- Does `needle` occur contiguously anywhere inside `hay`? -/
def occursIn (needle : List Char) : List Char → Bool
  | [] => beginsWith needle []
  | c :: cs => beginsWith needle (c :: cs) || occursIn needle cs

/-- JS `s.includes(t)`: substring containment on the character sequences. -/
def jsIncludes (s t : String) : Bool := occursIn t.toList s.toList

/-- JS `s.toLowerCase()` on the ASCII fragment. -/
def jsToLower (s : String) : String := String.mk (s.toList.map Char.toLower)

/-- A knowledge-base chunk as found in `knowledge_base.json`:
`{id, source, text}`. -/
structure Chunk where
  id : String
  source : String
  text : String
deriving Repr, DecidableEq, Inhabited

/-- Document frequency of term `t`: the number of chunks whose token list
(deduplicated, as by `new Set(tokenize(chunk.text))` in the source)
contains `t`. -/
def docFreq (chunks : List Chunk) (t : String) : Nat :=
  (chunks.filter fun c => (tokenize c.text).contains t).length

/-- The unboosted TF-IDF score of one chunk: the `score` accumulated by the
query-term loop of `computeTFIDF` in `chatbot.js` before the phrase-match
boost.  `tf[qt]` is the count of `qt` among the chunk's tokens; each query
term with positive term and document frequency contributes
`(termFreq / chunkTokens.length) * log(N / docFreq)`.  JS floating point is
modelled by rationals, with `Math.log` kept abstract as `lg`. -/
def tfidfScoreOf (lg : ℚ → ℚ) (queryTokens : List String) (df : String → Nat)
    (N : Nat) (chunk : Chunk) : ℚ :=
  let chunkTokens := tokenize chunk.text
  (queryTokens.map fun qt =>
    let termFreq := chunkTokens.count qt
    let dfq := df qt
    if 0 < termFreq ∧ 0 < dfq then
      ((termFreq : ℚ) / (chunkTokens.length : ℚ)) * lg ((N : ℚ) / (dfq : ℚ))
    else 0).sum

/-- Embedding of `computeTFIDF(query, chunks)` from `chatbot.js`: a score per
chunk, in chunk order; an empty tokenized query yields all zeros; a chunk whose
lowercased raw text contains the lowercased raw query as a substring has its
TF-IDF score doubled. -/
def computeTFIDF (lg : ℚ → ℚ) (query : String) (chunks : List Chunk) : List ℚ :=
  let queryTokens := tokenize query
  if queryTokens.isEmpty then chunks.map fun _ => 0
  else
    let df := docFreq chunks
    let N := chunks.length
    chunks.map fun chunk =>
      let score := tfidfScoreOf lg queryTokens df N chunk
      if jsIncludes (jsToLower chunk.text) (jsToLower query) then 2 * score else score

/-- A chunk paired with its query score, as built by the object spread
`{...chunk, score: scores[i]}` in `searchKnowledge`. -/
structure ScoredChunk where
  id : String
  source : String
  text : String
  score : ℚ
deriving Repr, DecidableEq

/-- The knowledge-base file shape `{chunks, sources, total_chunks}`. -/
structure KnowledgeBase where
  chunks : List Chunk
  sources : List String
  total_chunks : Nat
deriving Repr

def MAX_CONTEXT_CHUNKS : Nat := 8
def MAX_HISTORY : Nat := 10

/-- The comparator `(a, b) => b.score - a.score`: `a` may precede `b` exactly
when `a`'s score is at least `b`'s (descending order). -/
def scoreDesc (a b : ScoredChunk) : Bool := decide (b.score ≤ a.score)

/-- Embedding of `searchKnowledge(query)` from `chatbot.js`.  The module-level
`knowledgeBase` (possibly still unloaded, i.e. `null`) is passed explicitly as
`okb`; `.sort` is modelled by the stable `mergeSort`, matching the
implementation freedom on tie-breaks noted in the spec. -/
def searchKnowledge (lg : ℚ → ℚ) (okb : Option KnowledgeBase) (query : String) :
    List ScoredChunk :=
  match okb with
  | none => []
  | some kb =>
    if kb.chunks.isEmpty then []
    else
      let scores := computeTFIDF lg query kb.chunks
      ((((kb.chunks.zip scores).map fun p =>
          ScoredChunk.mk p.1.id p.1.source p.1.text p.2).filter fun c =>
              0 < c.score).mergeSort scoreDesc).take MAX_CONTEXT_CHUNKS

/-- `List.getD` through `List.map`, at an in-range index. -/
theorem getD_map_of_lt (f : α → β) (l : List α) (i : Nat) (hi : i < l.length)
    (d : α) (d' : β) : (l.map f).getD i d' = f (l.getD i d) := by
  simp [List.getD_eq_getElem?_getD, List.getElem?_eq_getElem, hi]

/-- **C8.** Every chunk whose raw text contains the raw query string as a
case-insensitive substring scores exactly twice its unboosted TF-IDF score;
every other chunk scores exactly its unboosted TF-IDF score. -/
theorem phrase_boost (lg : ℚ → ℚ) (query : String) (chunks : List Chunk)
    (i : Nat) (hi : i < chunks.length) :
    (computeTFIDF lg query chunks).getD i 0 =
      if jsIncludes (jsToLower (chunks.getD i default).text) (jsToLower query)
      then 2 * tfidfScoreOf lg (tokenize query) (docFreq chunks) chunks.length
            (chunks.getD i default)
      else tfidfScoreOf lg (tokenize query) (docFreq chunks) chunks.length
            (chunks.getD i default) := by
  unfold computeTFIDF
  by_cases hq : (tokenize query).isEmpty
  · have hq' : tokenize query = [] := List.isEmpty_iff.mp hq
    simp [hq, hq', tfidfScoreOf, getD_map_of_lt _ chunks i hi default]
  · simp only [hq, if_false, Bool.false_eq_true]
    exact getD_map_of_lt _ chunks i hi default 0

/-- Witness for C8: the boost identity evaluated on a one-chunk corpus whose
chunk contains the query as a substring. -/
theorem phrase_boost_witness :
    (computeTFIDF (fun _ => 3) "hello" [⟨"1", "cv", "hello world program"⟩]).getD 0 0 =
      if jsIncludes (jsToLower (([⟨"1", "cv", "hello world program"⟩] :
              List Chunk).getD 0 default).text) (jsToLower "hello")
      then 2 * tfidfScoreOf (fun _ => 3) (tokenize "hello")
            (docFreq [⟨"1", "cv", "hello world program"⟩]) 1
            (([⟨"1", "cv", "hello world program"⟩] : List Chunk).getD 0 default)
      else tfidfScoreOf (fun _ => 3) (tokenize "hello")
            (docFreq [⟨"1", "cv", "hello world program"⟩]) 1
            (([⟨"1", "cv", "hello world program"⟩] : List Chunk).getD 0 default) :=
  phrase_boost (fun _ => 3) "hello" [⟨"1", "cv", "hello world program"⟩] 0 (by decide)

/-- **C2.** `searchKnowledge` returns only chunks of strictly positive score,
in descending score order, and never more than the configured maximum
`MAX_CONTEXT_CHUNKS = 8` entries. -/
theorem search_positive_sorted_bounded (lg : ℚ → ℚ) (okb : Option KnowledgeBase)
    (query : String) :
    (∀ c ∈ searchKnowledge lg okb query, 0 < c.score) ∧
    (searchKnowledge lg okb query).Pairwise (fun a b => b.score ≤ a.score) ∧
    (searchKnowledge lg okb query).length ≤ 8 := by
  match okb with
  | none => simp [searchKnowledge]
  | some kb =>
    by_cases h : kb.chunks.isEmpty
    · simp [searchKnowledge, h]
    · unfold searchKnowledge
      simp only [h, if_false, Bool.false_eq_true]
      set L := ((kb.chunks.zip (computeTFIDF lg query kb.chunks)).map fun p =>
          ScoredChunk.mk p.1.id p.1.source p.1.text p.2).filter fun c =>
              0 < c.score with hL
      refine ⟨?_, ?_, ?_⟩
      · intro c hc
        have h1 : c ∈ L.mergeSort scoreDesc :=
          List.take_subset MAX_CONTEXT_CHUNKS _ hc
        have h2 : c ∈ L := List.mem_mergeSort.mp h1
        have h3 := (List.mem_filter.mp h2).2
        exact of_decide_eq_true h3
      · have hs : (L.mergeSort scoreDesc).Pairwise fun a b => scoreDesc a b := by
          refine List.sorted_mergeSort ?_ ?_ L
          · intro a b c hab hbc
            exact decide_eq_true (le_trans (of_decide_eq_true hbc) (of_decide_eq_true hab))
          · intro a b
            rcases le_total b.score a.score with h | h
            · simp [scoreDesc, h]
            · simp [scoreDesc, h]
        have hs' : (L.mergeSort scoreDesc).Pairwise fun a b => b.score ≤ a.score :=
          hs.imp fun h => of_decide_eq_true h
        exact hs'.sublist (List.take_sublist _ _)
      · exact le_trans (List.length_take_le _ _) (le_refl 8)

/-- `computeTFIDF` evaluated on a concrete one-chunk corpus: one matching token
out of three, document frequency 1, abstract log valued 3, phrase boost
applied: `2 * ((1/3) * 3) = 2`. -/
theorem computeTFIDF_eval :
    computeTFIDF (fun _ => 3) "hello" [⟨"1", "cv", "hello world program"⟩] = [2] := by
  have htok : tokenize "hello" = ["hello"] := by decide
  have hchunk : tokenize "hello world program" = ["hello", "world", "program"] := by decide
  have hinc : jsIncludes (jsToLower "hello world program") (jsToLower "hello") = true := by
    decide
  have hdf : docFreq [⟨"1", "cv", "hello world program"⟩] "hello" = 1 := by decide
  simp [computeTFIDF, tfidfScoreOf, htok, hchunk, hinc, hdf]

/-- `searchKnowledge` evaluated on the same concrete one-chunk knowledge
base. -/
theorem searchKnowledge_eval :
    searchKnowledge (fun _ => 3)
        (some ⟨[⟨"1", "cv", "hello world program"⟩], ["cv"], 1⟩) "hello"
      = [ScoredChunk.mk "1" "cv" "hello world program" 2] := by
  simp [searchKnowledge, computeTFIDF_eval, MAX_CONTEXT_CHUNKS]

/-- Witness for C2: on a concrete one-chunk knowledge base the returned chunk
has strictly positive score. -/
theorem search_positive_sorted_bounded_witness :
    0 < (ScoredChunk.mk "1" "cv" "hello world program" 2).score :=
  (search_positive_sorted_bounded (fun _ => 3)
      (some ⟨[⟨"1", "cv", "hello world program"⟩], ["cv"], 1⟩) "hello").1
    (ScoredChunk.mk "1" "cv" "hello world program" 2)
    (by rw [searchKnowledge_eval]; exact List.mem_singleton.mpr rfl)

/-! ## Chat orchestrator (`chatbot.js`, `callGemini` / `handleUserMessage`) -/

/-- A conversation-history entry `{role, text}`. -/
structure Msg where
  role : String
  text : String
deriving Repr, DecidableEq

/-- One part of an outbound Gemini-wire content entry. -/
structure GPart where
  text : String
deriving Repr, DecidableEq

/-- An outbound Gemini-wire content entry `{role, parts}` as built by
`callGemini`. -/
structure GContent where
  role : String
  parts : List GPart
deriving Repr, DecidableEq

/-- The system prompt constant of `chatbot.js`, verbatim. -/
def SYSTEM_PROMPT : String :=
  "You are a helpful assistant on Shreyas Grampurohit's personal academic website. \nYou answer questions about Shreyas based on the provided context from his documents, CV, papers, and website content.\nBe concise, friendly, and accurate. If the context doesn't contain enough information to answer, say so honestly.\nDo not make up information. You can format responses with markdown.\nRefer to Shreyas in third person unless quoting directly."

/-- JS `array.slice(-n)`: the at most `n` last elements. -/
def jsSliceLast (n : Nat) (l : List α) : List α := l.drop (l.length - n)

/-- The per-history-entry translation
`{role: msg.role === 'user' ? 'user' : 'model', parts: [{text: msg.text}]}`. -/
def msgToContent (m : Msg) : GContent :=
  ⟨if m.role = "user" then "user" else "model", [⟨m.text⟩]⟩

/-- The context block: each retrieved chunk tagged with its source, joined with
separators, or the fixed fallback text when nothing was retrieved. -/
def contextTextOf (contextChunks : List ScoredChunk) : String :=
  if 0 < contextChunks.length then
    String.intercalate "\n\n---\n\n"
      (contextChunks.map fun c => "[Source: " ++ c.source ++ "]\n" ++ c.text)
  else "No specific context found in the knowledge base."

/-- The augmented user message: context block followed by the literal
question. -/
def userMessageOf (query : String) (contextChunks : List ScoredChunk) : String :=
  "Context from Shreyas's documents:\n\n" ++ contextTextOf contextChunks ++
    "\n\n---\n\nQuestion: " ++ query

/-- The outbound `contents` list built by `callGemini`: the last
`MAX_HISTORY = 10` history entries, then one user message embedding the
retrieved context and the question. -/
def geminiContents (history : List Msg) (query : String)
    (contextChunks : List ScoredChunk) : List GContent :=
  (jsSliceLast MAX_HISTORY history).map msgToContent ++
    [⟨"user", [⟨userMessageOf query contextChunks⟩]⟩]

/-- The `generationConfig` object. -/
structure GenerationConfig where
  temperature : ℚ
  maxOutputTokens : Nat
deriving Repr, DecidableEq

/-- The full request body `callGemini` posts to the proxy. -/
structure GeminiBody where
  contents : List GContent
  systemInstruction : List GPart
  generationConfig : GenerationConfig
deriving Repr, DecidableEq

/-- The request body with the fixed system prompt and generation defaults
(temperature 0.7, 1024 max output tokens). -/
def geminiRequestBody (history : List Msg) (query : String)
    (contextChunks : List ScoredChunk) : GeminiBody :=
  ⟨geminiContents history query contextChunks, [⟨SYSTEM_PROMPT⟩], ⟨7 / 10, 1024⟩⟩

/-- **C3.** The outbound message list consists of at most the 10 most recent
history entries followed by one appended user message that embeds every
retrieved chunk tagged with its source and ends with the literal question; with
23 history entries at call time (the 12th request of a session, after the
just-appended user turn) the oldest 13 entries are dropped. -/
theorem outbound_window (history : List Msg) (query : String)
    (cs : List ScoredChunk) :
    (geminiContents history query cs).length = min history.length 10 + 1 ∧
    geminiContents history query cs =
      (history.drop (history.length - 10)).map msgToContent ++
        [⟨"user", [⟨userMessageOf query cs⟩]⟩] ∧
    (history.length = 23 → geminiContents history query cs =
      (history.drop 13).map msgToContent ++
        [⟨"user", [⟨userMessageOf query cs⟩]⟩]) ∧
    (cs ≠ [] → userMessageOf query cs =
      "Context from Shreyas's documents:\n\n" ++
        String.intercalate "\n\n---\n\n"
          (cs.map fun c => "[Source: " ++ c.source ++ "]\n" ++ c.text) ++
        "\n\n---\n\nQuestion: " ++ query) := by
  refine ⟨?_, rfl, ?_, ?_⟩
  · simp [geminiContents, jsSliceLast, MAX_HISTORY]
    omega
  · intro h23
    simp [geminiContents, jsSliceLast, MAX_HISTORY, h23]
  · intro hcs
    have hlen : 0 < cs.length := List.length_pos.mpr hcs
    simp [userMessageOf, contextTextOf, hlen]

/-- Witness for C3: with a concrete 23-entry history, the outbound list keeps
exactly the last 10 entries before the appended context message. -/
theorem outbound_window_witness :
    geminiContents (List.replicate 23 (Msg.mk "user" "x")) "q"
        [ScoredChunk.mk "1" "cv" "t" 1] =
      ((List.replicate 23 (Msg.mk "user" "x")).drop 13).map msgToContent ++
        [⟨"user", [⟨userMessageOf "q" [ScoredChunk.mk "1" "cv" "t" 1]⟩]⟩] :=
  (outbound_window (List.replicate 23 (Msg.mk "user" "x")) "q"
      [ScoredChunk.mk "1" "cv" "t" 1]).2.2.1 (by simp)

/-- A chat bubble appended to the message pane by `appendMessage`. -/
structure UiMsg where
  role : String
  text : String
  isError : Bool
deriving Repr, DecidableEq

/-- The module state of `chatbot.js` that `handleUserMessage` reads and
writes: the conversation history, the rendered chat bubbles, and the in-flight
flag.  (The transient typing indicator, added and removed on every path, is
not tracked.) -/
structure ChatState where
  conversationHistory : List Msg
  uiMessages : List UiMsg
  isLoading : Bool
deriving Repr, DecidableEq

/-- The error-bubble text ``‚ö†Ô∏è ${err.message}``, verbatim from the
source. -/
def errorBubbleText (e : String) : String := "‚ö†Ô∏è " ++ e

/-- JS `s.trim()` on the character sequence. -/
def jsTrim (s : String) : String :=
  String.mk (((s.toList.dropWhile Char.isWhitespace).reverse.dropWhile
    Char.isWhitespace).reverse)

/-- Embedding of `handleUserMessage(message)` from `chatbot.js`.  The network
round-trip of `callGemini` is abstracted as the oracle `gw`, applied to the
request body `callGemini` would post; `Except.error` models a thrown/rejected
error with its message, `Except.ok` a successful reply text.  The guard
`!message.trim()` is the emptiness test on the trimmed message. -/
def handleUserMessage (lg : ℚ → ℚ) (okb : Option KnowledgeBase)
    (gw : GeminiBody → Except String String) (st : ChatState)
    (message : String) : ChatState :=
  if st.isLoading then st
  else if (jsTrim message).isEmpty then st
  else
    let st1 : ChatState :=
      { conversationHistory := st.conversationHistory ++ [⟨"user", message⟩],
        uiMessages := st.uiMessages ++ [⟨"user", message, false⟩],
        isLoading := true }
    let relevant := searchKnowledge lg okb message
    match gw (geminiRequestBody st1.conversationHistory message relevant) with
    | .ok reply =>
      { conversationHistory := st1.conversationHistory ++ [⟨"assistant", reply⟩],
        uiMessages := st1.uiMessages ++ [⟨"bot", reply, false⟩],
        isLoading := false }
    | .error e =>
      { conversationHistory := st1.conversationHistory,
        uiMessages := st1.uiMessages ++ [⟨"bot", errorBubbleText e, true⟩],
        isLoading := false }

/-- **C6 counterexample.** On total provider failure the conversation history
is NOT left equal to its pre-turn value: starting from an empty history, a
failing gateway call leaves the just-appended user turn in the history. -/
theorem history_mutated_on_failure :
    (handleUserMessage (fun _ => 0) none (fun _ => Except.error "API error 502")
        ⟨[], [], false⟩ "hi").conversationHistory = [Msg.mk "user" "hi"] ∧
    ([Msg.mk "user" "hi"] : List Msg) ≠
      (ChatState.mk [] [] false).conversationHistory := by
  constructor
  · rfl
  · simp

/-- **C6 amended.** On a failed gateway call the turn handler appends a
user-facing error bubble, clears the loading flag, and leaves the history equal
to its pre-turn value **plus the just-appended user message** — no synthetic
assistant turn is added. -/
theorem failure_keeps_user_turn (lg : ℚ → ℚ) (okb : Option KnowledgeBase)
    (gw : GeminiBody → Except String String) (st : ChatState) (message e : String)
    (hload : st.isLoading = false)
    (hmsg : (jsTrim message).isEmpty = false)
    (hgw : gw (geminiRequestBody (st.conversationHistory ++ [⟨"user", message⟩])
            message (searchKnowledge lg okb message)) = .error e) :
    (handleUserMessage lg okb gw st message).conversationHistory
        = st.conversationHistory ++ [Msg.mk "user" message] ∧
    (handleUserMessage lg okb gw st message).uiMessages
        = st.uiMessages ++
            [UiMsg.mk "user" message false,
             UiMsg.mk "bot" (errorBubbleText e) true] ∧
    (handleUserMessage lg okb gw st message).isLoading = false := by
  simp [handleUserMessage, hload, hmsg, hgw]

/-- Witness for C6 (amended): concrete failing turn from an empty state. -/
theorem failure_keeps_user_turn_witness :
    (handleUserMessage (fun _ => 0) none (fun _ => Except.error "API error 502")
        ⟨[], [], false⟩ "hi").conversationHistory = [] ++ [Msg.mk "user" "hi"] :=
  (failure_keeps_user_turn (fun _ => 0) none (fun _ => Except.error "API error 502")
      ⟨[], [], false⟩ "hi" "API error 502" rfl (by decide) rfl).1

/-! ## Gateway worker (`cloudflare-worker.js`) -/

/-- One part of an inbound wire content entry; `text` may be absent. -/
structure WPart where
  text : Option String
deriving Repr, DecidableEq

/-- An inbound wire content entry.  `role` is absent or a string (a non-string
JSON value behaves like an unrecognized string under the strict equality
`c.role === 'model'`); `parts` is absent or a list. -/
structure WContent where
  role : Option String
  parts : Option (List WPart)
deriving Repr, DecidableEq

/-- Embedding of the per-entry body of `normalizeMessages`:
`role: c.role === 'model' ? 'assistant' : 'user'` and
`text: (c.parts || []).map(p => p.text || '').join('\n')`. -/
def normalizeOne (c : WContent) : Msg :=
  ⟨if c.role = some "model" then "assistant" else "user",
   String.intercalate "\n" ((c.parts.getD []).map fun p => p.text.getD "")⟩

/-- Embedding of `normalizeMessages(contents)` from `cloudflare-worker.js`. -/
def normalizeMessages (contents : List WContent) : List Msg :=
  contents.map normalizeOne

/-- **C10.** Message normalization maps role `"model"` to `"assistant"` and
every other (or missing) role to `"user"`, never rejecting an entry, and joins
the parts' text fields with newlines, a missing parts list yielding the empty
string. -/
theorem normalize_roles_and_text (contents : List WContent) :
    normalizeMessages contents = contents.map normalizeOne ∧
    (normalizeMessages contents).length = contents.length ∧
    ∀ c : WContent,
      ((normalizeOne c).role = "assistant" ↔ c.role = some "model") ∧
      ((normalizeOne c).role = "user" ↔ c.role ≠ some "model") ∧
      (normalizeOne c).text =
        String.intercalate "\n" ((c.parts.getD []).map fun p => p.text.getD "") ∧
      (c.parts = none → (normalizeOne c).text = "") := by
  refine ⟨rfl, by simp [normalizeMessages], ?_⟩
  intro c
  refine ⟨?_, ?_, rfl, ?_⟩
  · by_cases h : c.role = some "model" <;> simp [normalizeOne, h]
  · by_cases h : c.role = some "model" <;> simp [normalizeOne, h]
  · intro h
    simp only [normalizeOne, h, Option.getD_none, List.map_nil]
    rfl

/-- Witness for C10: an entry with an unrecognized role and no parts is coerced
to a `"user"` message with empty text. -/
theorem normalize_roles_and_text_witness :
    ((normalizeOne (WContent.mk (some "system") none)).role = "user" ↔
        (WContent.mk (some "system") none).role ≠ some "model") ∧
      (normalizeOne (WContent.mk (some "system") none)).text = "" :=
  ⟨((normalize_roles_and_text []).2.2 (WContent.mk (some "system") none)).2.1,
   ((normalize_roles_and_text []).2.2 (WContent.mk (some "system") none)).2.2.2 rfl⟩

/-! ### Provider adapters (`callClaude` / `callOpenAI`)

Each adapter issues one `fetch` and parses the response body; both effects are
abstracted as a `FetchOutcome`: either the whole attempt threw (network fault or
malformed body, caught by the adapter's `try/catch`) or it produced a response
with an `ok` flag, a status, and a parsed vendor body. -/

inductive FetchOutcome (β : Type) where
  | fault (msg : String)
  | reply (ok : Bool) (status : Nat) (data : β)
deriving Repr, DecidableEq

/-- The `error` field of a failed adapter result: either the parsed vendor
error payload (non-2xx status) or the caught exception message. -/
inductive AdapterError (β : Type) where
  | payload (data : β)
  | transport (msg : String)
deriving Repr, DecidableEq

/-- An adapter's return value: `{ok: true, data}` carrying the extracted reply
text (re-wrapped into the Gemini `candidates` shape by the source), or
`{ok: false, status, error}`. -/
inductive AdapterResult (β : Type) where
  | ok (text : String)
  | err (status : Nat) (error : AdapterError β)
deriving Repr, DecidableEq

/-- The Claude response shape read by `data?.content?.[0]?.text || ''`. -/
structure ClaudeBlock where
  text : Option String
deriving Repr, DecidableEq

structure ClaudeData where
  content : Option (List ClaudeBlock)
deriving Repr, DecidableEq

/-- `data?.content?.[0]?.text || ''`. -/
def claudeText (d : ClaudeData) : String :=
  ((d.content.bind List.head?).bind ClaudeBlock.text).getD ""

/-- Embedding of the response handling of `callClaude` from
`cloudflare-worker.js`: a thrown fault becomes `{ok:false, status:500,
error:e.message}`; a non-ok response becomes `{ok:false, status, error:data}`;
an ok response becomes `{ok:true}` with the extracted text. -/
def callClaude (att : FetchOutcome ClaudeData) : AdapterResult ClaudeData :=
  match att with
  | .fault e => .err 500 (.transport e)
  | .reply ok status data =>
    if ok then .ok (claudeText data) else .err status (.payload data)

/-- The OpenAI response shape read by
`data?.choices?.[0]?.message?.content || ''`. -/
structure OpenAIMessage where
  content : Option String
deriving Repr, DecidableEq

structure OpenAIChoice where
  message : Option OpenAIMessage
deriving Repr, DecidableEq

structure OpenAIData where
  choices : Option (List OpenAIChoice)
deriving Repr, DecidableEq

/-- `data?.choices?.[0]?.message?.content || ''`. -/
def openAIText (d : OpenAIData) : String :=
  (((d.choices.bind List.head?).bind OpenAIChoice.message).bind
    OpenAIMessage.content).getD ""

/-- Embedding of the response handling of `callOpenAI` from
`cloudflare-worker.js`. -/
def callOpenAI (att : FetchOutcome OpenAIData) : AdapterResult OpenAIData :=
  match att with
  | .fault e => .err 500 (.transport e)
  | .reply ok status data =>
    if ok then .ok (openAIText data) else .err status (.payload data)

/-- **C4 counterexample.** A success HTTP status whose body has no extractable
generated text yields a `Success` (`ok: true`) with empty text — not a
`Failure` as the claim states. -/
theorem empty_reply_is_success :
    callClaude (.reply true 200 ⟨some []⟩) = .ok "" ∧
    callOpenAI (.reply true 200 ⟨none⟩) = .ok "" := by
  exact ⟨rfl, rfl⟩

/-- **C4 amended.** A provider adapter call that receives a success HTTP status
but whose response body contains no extractable generated text returns a
`Success` whose canonical text is the empty string (the empty reply is
propagated as success; only the browser client later rejects an empty
reply). -/
theorem empty_reply_success_empty_text (status : Nat) (dc : ClaudeData)
    (dop : OpenAIData) (h1 : claudeText dc = "") (h2 : openAIText dop = "") :
    callClaude (.reply true status dc) = .ok "" ∧
    callOpenAI (.reply true status dop) = .ok "" := by
  simp [callClaude, callOpenAI, h1, h2]

/-- Witness for C4 (amended): concrete bodies with no extractable text. -/
theorem empty_reply_success_empty_text_witness :
    callClaude (.reply true 200 ⟨none⟩) = .ok "" ∧
    callOpenAI (.reply true 200 ⟨some []⟩) = .ok "" :=
  empty_reply_success_empty_text 200 ⟨none⟩ ⟨some []⟩ rfl rfl

/-- **C5 counterexample.** A transport-level fault produces a `Failure` that
DOES carry an HTTP status code — the synthetic `500` — contradicting the
claim's "carrying no HTTP status code". -/
theorem transport_fault_carries_status :
    callClaude (.fault "network unreachable") =
      .err 500 (.transport "network unreachable") ∧
    callOpenAI (.fault "unexpected end of JSON input") =
      .err 500 (.transport "unexpected end of JSON input") := by
  exact ⟨rfl, rfl⟩

/-- **C5 amended.** On any transport-level fault the adapter returns a
`Failure` carrying the transport error detail and the synthetic HTTP status
`500`; the `try/catch` makes the adapter total, so no fault escapes
uncaught. -/
theorem transport_fault_failure (e : String) :
    callClaude (.fault e) = .err 500 (.transport e) ∧
    callOpenAI (.fault e) = .err 500 (.transport e) := by
  exact ⟨rfl, rfl⟩

/-! ### Gateway router (`handleRequest`)

The provider fallback chain of `handleRequest`: three identical blocks, one per
provider in the fixed order Claude → OpenAI → Gemini, each guarded by the
truthiness of its credential.  The actual adapter invocation is abstracted as
an oracle `call : Provider → CallResult α` (the routing logic never inspects
the payload). -/

inductive Provider where
  | claude
  | openai
  | gemini
deriving Repr, DecidableEq

/-- The fixed fallback order of `handleRequest`. -/
def providerOrder : List Provider := [.claude, .openai, .gemini]

/-- The worker environment: one optional credential secret per provider. -/
structure Env where
  CLAUDE_API_KEY : Option String
  OPENAI_API_KEY : Option String
  GEMINI_API_KEY : Option String
deriving Repr, DecidableEq

def keyOf (e : Env) : Provider → Option String
  | .claude => e.CLAUDE_API_KEY
  | .openai => e.OPENAI_API_KEY
  | .gemini => e.GEMINI_API_KEY

/-- `const key = env?.X_API_KEY || null; if (key) ...`: the provider is
attempted iff its credential is present and nonempty (JS truthiness of a
string). -/
def truthyKey : Option String → Bool
  | some s => !s.isEmpty
  | none => false

def configuredB (e : Env) (p : Provider) : Bool := truthyKey (keyOf e p)

/-- The configuration-error diagnostic message pushed when a credential is
absent. -/
def notSetMsg : Provider → String
  | .claude => "CLAUDE_API_KEY not set"
  | .openai => "OPENAI_API_KEY not set"
  | .gemini => "GEMINI_API_KEY not set"

/-- Outcome of one adapter invocation as seen by the router: `res.ok` with the
response data, or `!res.ok` with a status and error detail. -/
inductive CallResult (α : Type) where
  | ok (data : α)
  | err (status : Nat) (error : String)
deriving Repr, DecidableEq

def isOkCall : CallResult α → Bool
  | .ok _ => true
  | .err _ _ => false

/-- One entry of the `errors` array: provider name, error detail, and the
status when the provider was actually called (`undefined`, i.e. `none`, for a
missing credential). -/
structure Diag where
  provider : Provider
  error : String
  status : Option Nat
deriving Repr, DecidableEq

/-- The router's result: the first successful provider's data, or the ordered
aggregate diagnostics of `{error: 'All providers failed', details: errors}`. -/
inductive DispatchResult (α : Type) where
  | success (data : α)
  | aggregate (details : List Diag)
deriving Repr, DecidableEq

/-- The provider loop of `handleRequest`, one step per provider in `ps`:
skip-and-record when the credential is falsy, short-circuit on `res.ok`,
record-and-continue on failure.  Also returns the list of providers actually
called, in call order. -/
def runProviders (e : Env) (call : Provider → CallResult α) :
    List Provider → List Diag → List Provider → DispatchResult α × List Provider
  | [], errs, calls => (.aggregate errs, calls)
  | p :: rest, errs, calls =>
    if configuredB e p then
      match call p with
      | .ok d => (.success d, calls ++ [p])
      | .err st er => runProviders e call rest (errs ++ [⟨p, er, some st⟩]) (calls ++ [p])
    else
      runProviders e call rest (errs ++ [⟨p, notSetMsg p, none⟩]) calls

/-- The full fallback chain of `handleRequest` over the fixed provider
order. -/
def dispatch (e : Env) (call : Provider → CallResult α) :
    DispatchResult α × List Provider :=
  runProviders e call providerOrder [] []

/-- The diagnostic entry recorded for provider `p` when it does not succeed:
its call failure when configured, otherwise its configuration error. -/
def diagOf (e : Env) (call : Provider → CallResult α) (p : Provider) : Diag :=
  if configuredB e p then
    match call p with
    | .err st er => ⟨p, er, some st⟩
    | .ok _ => ⟨p, "", none⟩
  else ⟨p, notSetMsg p, none⟩

/-- The outcome of the POST handler: the validation 400, the first successful
provider's data as a 200, or the 502 aggregate failure. -/
inductive WorkerResponse (α : Type) where
  | badRequest (status : Nat) (error : String)
  | okJSON (status : Nat) (data : α)
  | allFailed (status : Nat) (error : String) (details : List Diag)
deriving Repr, DecidableEq

/-- Embedding of the POST body handling of `handleRequest`
(`cloudflare-worker.js`): the guard
`if (!body.contents || !Array.isArray(body.contents))` rejects with a 400
before any provider logic runs; `contents = none` models both a missing
`contents` field and a non-array value (JS falsy or failing `Array.isArray`).
On an array, the provider chain runs; the per-provider network calls are the
oracle `call` (the messages normalized by `normalizeMessages` are consumed by
the adapters, modelled separately, and never influence the routing). -/
def handlePost (e : Env) (call : Provider → CallResult α)
    (contents : Option (List WContent)) : WorkerResponse α × List Provider :=
  match contents with
  | none => (.badRequest 400 "Invalid request: contents array required", [])
  | some _ =>
    match dispatch e call with
    | (.success d, calls) => (.okJSON 200 d, calls)
    | (.aggregate ds, calls) => (.allFailed 502 "All providers failed" ds, calls)

/-- The called-provider list always extends the accumulator by a sublist of the
configured providers among those remaining. -/
theorem runProviders_calls_sublist (e : Env) (call : Provider → CallResult α) :
    ∀ (ps : List Provider) (errs : List Diag) (calls : List Provider),
      ∃ l, (runProviders e call ps errs calls).2 = calls ++ l ∧
        l.Sublist (ps.filter (configuredB e)) := by
  intro ps
  induction ps with
  | nil => intro errs calls; exact ⟨[], by simp [runProviders], List.Sublist.refl _⟩
  | cons p rest ih =>
    intro errs calls
    by_cases hc : configuredB e p
    · match hcall : call p with
      | .ok d =>
        refine ⟨[p], by simp [runProviders, hc, hcall], ?_⟩
        simp only [List.filter_cons, hc]
        exact (List.singleton_sublist.mpr (List.mem_cons_self _ _))
      | .err st er =>
        obtain ⟨l, hl, hs⟩ := ih (errs ++ [⟨p, er, some st⟩]) (calls ++ [p])
        refine ⟨p :: l, ?_, ?_⟩
        · simp [runProviders, hc, hcall, hl]
        · simp only [List.filter_cons, hc]
          exact List.Sublist.cons₂ p hs
    · obtain ⟨l, hl, hs⟩ := ih (errs ++ [⟨p, notSetMsg p, none⟩]) calls
      refine ⟨l, by simp [runProviders, hc, hl], ?_⟩
      simp only [List.filter_cons, hc]
      simpa using hs

/-- When every remaining provider either has no credential or fails, the loop
returns the aggregate of all their diagnostics in order, having called exactly
the configured ones. -/
theorem runProviders_all_fail (e : Env) (call : Provider → CallResult α)
    (hall : ∀ p, configuredB e p = true → isOkCall (call p) = false) :
    ∀ (ps : List Provider) (errs : List Diag) (calls : List Provider),
      runProviders e call ps errs calls =
        (.aggregate (errs ++ ps.map (diagOf e call)),
         calls ++ ps.filter (configuredB e)) := by
  intro ps
  induction ps with
  | nil => intro errs calls; simp [runProviders]
  | cons p rest ih =>
    intro errs calls
    by_cases hc : configuredB e p
    · match hcall : call p with
      | .ok d =>
        have := hall p hc
        rw [hcall] at this
        exact absurd this (by simp [isOkCall])
      | .err st er =>
        rw [show runProviders e call (p :: rest) errs calls =
              runProviders e call rest (errs ++ [⟨p, er, some st⟩]) (calls ++ [p]) by
            simp [runProviders, hc, hcall]]
        rw [ih]
        simp [List.filter_cons, hc, diagOf, hcall]
    · rw [show runProviders e call (p :: rest) errs calls =
            runProviders e call rest (errs ++ [⟨p, notSetMsg p, none⟩]) calls by
          simp [runProviders, hc]]
      rw [ih]
      simp [List.filter_cons, hc, diagOf]

/-- When every provider before `p` fails or is unconfigured and `p` is
configured and succeeds, the loop short-circuits at `p`. -/
theorem runProviders_first_success (e : Env) (call : Provider → CallResult α)
    (p : Provider) (d : α) (hp : configuredB e p = true) (hd : call p = .ok d) :
    ∀ (pre rest : List Provider) (errs : List Diag) (calls : List Provider),
      (∀ q ∈ pre, configuredB e q = true → isOkCall (call q) = false) →
      runProviders e call (pre ++ p :: rest) errs calls =
        (.success d, calls ++ pre.filter (configuredB e) ++ [p]) := by
  intro pre
  induction pre with
  | nil =>
    intro rest errs calls _
    simp [runProviders, hp, hd]
  | cons q pre' ih =>
    intro rest errs calls hfail
    by_cases hq : configuredB e q
    · match hcall : call q with
      | .ok dq =>
        have := hfail q (List.mem_cons_self _ _) hq
        rw [hcall] at this
        exact absurd this (by simp [isOkCall])
      | .err st er =>
        rw [List.cons_append,
          show runProviders e call (q :: (pre' ++ p :: rest)) errs calls =
              runProviders e call (pre' ++ p :: rest)
                (errs ++ [⟨q, er, some st⟩]) (calls ++ [q]) by
            simp [runProviders, hq, hcall]]
        rw [ih rest _ _ fun r hr => hfail r (List.mem_cons_of_mem _ hr)]
        simp [List.filter_cons, hq]
    · rw [List.cons_append,
        show runProviders e call (q :: (pre' ++ p :: rest)) errs calls =
            runProviders e call (pre' ++ p :: rest)
              (errs ++ [⟨q, notSetMsg q, none⟩]) calls by
          simp [runProviders, hq]]
      rw [ih rest _ _ fun r hr => hfail r (List.mem_cons_of_mem _ hr)]
      simp [List.filter_cons, hq]

/-- **C1.** The gateway tries providers in the fixed order Claude → OpenAI →
Gemini: the providers actually called form a subsequence of the configured
providers in that order (so an unconfigured provider is never called); if the
first otherwise-unsuccessful prefix is followed by a configured provider whose
call succeeds, the dispatch returns that provider's data and calls no later
provider; and if every provider is unconfigured or fails, the result is the
aggregate failure with exactly one diagnostic per provider in call order, the
unconfigured ones carrying their configuration-error entry. -/
theorem gateway_fallback (e : Env) (call : Provider → CallResult α) :
    ((dispatch e call).2.Sublist (providerOrder.filter (configuredB e))) ∧
    (∀ p, configuredB e p = false → p ∉ (dispatch e call).2) ∧
    (∀ pre p rest d, providerOrder = pre ++ p :: rest →
      (∀ q ∈ pre, configuredB e q = true → isOkCall (call q) = false) →
      configuredB e p = true → call p = .ok d →
      dispatch e call = (.success d, pre.filter (configuredB e) ++ [p])) ∧
    ((∀ p, configuredB e p = true → isOkCall (call p) = false) →
      dispatch e call = (.aggregate (providerOrder.map (diagOf e call)),
                         providerOrder.filter (configuredB e)) ∧
      (providerOrder.map (diagOf e call)).map Diag.provider = providerOrder ∧
      ∀ p, configuredB e p = false → diagOf e call p = ⟨p, notSetMsg p, none⟩) ∧
    (∀ cs : List WContent, (handlePost e call (some cs)).2 = (dispatch e call).2) := by
  obtain ⟨l, hl, hs⟩ := runProviders_calls_sublist e call providerOrder [] []
  have hcalls : (dispatch e call).2.Sublist (providerOrder.filter (configuredB e)) := by
    rw [dispatch, hl]; simpa using hs
  refine ⟨hcalls, ?_, ?_, ?_, ?_⟩
  · intro p hp hmem
    have := hcalls.subset hmem
    rw [List.mem_filter] at this
    rw [hp] at this
    exact absurd this.2 (by simp)
  · intro pre p rest d horder hfail hp hd
    rw [dispatch, horder, runProviders_first_success e call p d hp hd pre rest [] [] hfail]
    simp
  · intro hall
    refine ⟨?_, ?_, ?_⟩
    · rw [dispatch, runProviders_all_fail e call hall providerOrder [] []]
      simp
    · have : ∀ p, (diagOf e call p).provider = p := by
        intro p
        by_cases hc : configuredB e p
        · match hcall : call p with
          | .ok dq =>
            have := hall p hc
            rw [hcall] at this
            exact absurd this (by simp [isOkCall])
          | .err st er => simp [diagOf, hc, hcall]
        · simp [diagOf, hc]
      rw [List.map_map]
      exact List.map_congr_left fun p _ => this p
    · intro p hp
      simp [diagOf, hp]
  · intro cs
    rcases h : dispatch e call with ⟨r, calls⟩
    cases r <;> simp [handlePost, h]

/-- Witness for C1: with a credential configured only for OpenAI and an oracle
that succeeds, exactly one outbound call is made — to OpenAI — and its data is
returned (the spec's `[A,B,C]` example with credentials only for `B`). -/
theorem gateway_fallback_witness :
    dispatch ⟨none, some "sk-test", none⟩ (fun _ => CallResult.ok "reply") =
      ((DispatchResult.success "reply"),
        ([Provider.claude].filter
            (configuredB ⟨none, some "sk-test", none⟩) ++ [Provider.openai])) :=
  (gateway_fallback ⟨none, some "sk-test", none⟩ (fun _ => CallResult.ok "reply")).2.2.1
    [Provider.claude] Provider.openai [Provider.gemini] "reply" rfl
    (by intro q hq hcfg; simp at hq; rw [hq] at hcfg; exact absurd hcfg (by decide))
    (by decide) rfl

/-! ### Request validation (`handleRequest`, POST body handling) -/

/-- **C7.** A request whose body lacks a `contents` field or whose `contents`
is not an array is rejected with the client-error status 400 and the
validation message, and zero providers are invoked. -/
theorem validation_short_circuit (e : Env) (call : Provider → CallResult α) :
    handlePost e call none =
      (.badRequest 400 "Invalid request: contents array required", []) ∧
    (handlePost e call none).2 = [] := by
  exact ⟨rfl, rfl⟩

end Website
